import Mathlib

/-!
Verification of `snyk_collections_manager.py` (CollectionsAPI repository).

The script is a sequential orchestration over a remote REST API.  We embed it
shallowly: the remote is modelled as a deterministic `ApiBehavior` record that
fixes the outcome of every network request a run can issue (the served page
feeds for the two paged list endpoints, the outcome of the create-collection
request with and without an inline relationship payload, and the outcome of
the attach request).  Every embedded function is total; Python exceptions that
the source catches inside a function are represented by `Except` values that
the embedding handles exactly where the source handles them, and the one
`sys.exit` escape is represented by the `Outcome.exit` constructor threaded
through return values.  Network requests and file writes are recorded in an
event trace so that frame claims (which requests were issued, which files were
written) are statable.
-/

set_option autoImplicit false

namespace CollectionsAPI

/-- A remote JSON entry (a project or a collection) as the script consumes it:
`id` is read with `entry['id']` / `entry.get('id', ...)`, and the display name
with `entry.get('attributes', {}).get('name')`, which yields Python `None`
(here `Option.none`) when the `attributes` or `name` key is missing. -/
structure Entry where
  id : String
  name : Option String
deriving DecidableEq, Repr

/-- Failure of one HTTP GET inside a paginated listing: a non-2xx status
raised by `response.raise_for_status()` (carrying the status code), or a
transport-level `requests` failure with no response attached. -/
inductive SnykErr where
  | http (status : Nat)
  | transport
deriving DecidableEq, Repr

/-- One served page of a paged list endpoint: either a successful JSON body,
whose `data` field holds `data` and whose `links.next` field is present iff
`hasNext` (the next URL then designates the next element of the feed), or a
failing request. -/
inductive PageResp where
  | ok (data : List Entry) (hasNext : Bool)
  | err (e : SnykErr)
deriving DecidableEq, Repr

/-- Python truthiness of an optional string (`if output_file:`): false for
`None` and for the empty string. -/
def pyTruthyStr : Option String → Bool
  | none => false
  | some s => !s.isEmpty

/-- Python truthiness of an optional id list (`if project_ids:`): false for
`None` and for the empty list. -/
def pyTruthyIds : Option (List String) → Bool
  | none => false
  | some l => !l.isEmpty

/-- The `while url:` pagination loop shared by `get_projects_by_name_prefix`
(lines 58-70) and `get_collections` (lines 109-121): fetch the current page;
a failing request raises (the whole accumulated prefix is discarded by the
enclosing `except`); otherwise append the `data` field to the accumulator and
continue iff `links.next` is present.  The feed lists the successive
responses the remote serves along the next-link chain. -/
def walkPages : List PageResp → Except SnykErr (List Entry)
  | [] => Except.ok []
  | PageResp.err e :: _ => Except.error e
  | PageResp.ok data hasNext :: rest =>
    if hasNext then
      match walkPages rest with
      | Except.ok more => Except.ok (data ++ more)
      | Except.error e => Except.error e
    else
      Except.ok data

/-- `get_projects_by_name_prefix` (source lines 42-94; the name-prefix filter
is applied server-side, so here it is part of the served feed): run the
pagination loop; the `except requests.exceptions.RequestException` handler at
lines 85-94 turns every listing failure into the empty list. -/
def get_projects_by_name_start (feed : List PageResp) : List Entry :=
  match walkPages feed with
  | Except.ok projects => projects
  | Except.error _ => []

/-- `get_collections` (source lines 96-147): identical pagination loop over
the collections endpoint; the handler at lines 136-147 turns every listing
failure into the empty list. -/
def get_collections (feed : List PageResp) : List Entry :=
  match walkPages feed with
  | Except.ok collections => collections
  | Except.error _ => []

/-- The diagnostic lines printed by the `except` handler of
`get_projects_by_name_prefix` (lines 85-94): the base error line always, plus
a status-specific warning for 404, 401 and 403 responses; a transport error
has no response object, so only the base line is printed. -/
def projects_error_messages : SnykErr → List String
  | SnykErr.transport => ["Error retrieving projects"]
  | SnykErr.http s =>
    "Error retrieving projects" ::
      (if s = 404 then ["Projects endpoint not found. This organization may not have projects yet."]
       else if s = 401 then ["Unauthorized. Please check your API token and organization ID."]
       else if s = 403 then ["Forbidden. You may not have permission to access projects."]
       else [])

/-- The diagnostic lines printed by the `except` handler of `get_collections`
(lines 136-147). -/
def collections_error_messages : SnykErr → List String
  | SnykErr.transport => ["Error retrieving collections"]
  | SnykErr.http s =>
    "Error retrieving collections" ::
      (if s = 404 then
        ["Collections are not available for this organization (404 Not Found)",
         "Collections might be a premium feature or not enabled.",
         "The script cannot proceed without collections support."]
       else if s = 401 then ["Unauthorized. Please check your API token and organization ID."]
       else if s = 403 then ["Forbidden. You may not have permission to access collections."]
       else [])

/-- The linear scan of `find_collection_by_name` (lines 161-167): first entry
in list order whose `attributes.get('name')` equals the target string
(Python `==` on a `None` name and a string is false, hence `some target`). -/
def find_first_by_name : List Entry → String → Option Entry
  | [], _ => none
  | e :: rest, target =>
    if e.name = some target then some e else find_first_by_name rest target

/-- Deterministic model of the remote API for one run: the response feeds of
the two paged list endpoints, the outcome of the create-collection POST with
the inline relationship payload (`some` created entry on 2xx, `none` on
failure), the outcome of the name-only create-collection POST, and whether
the attach POST succeeds. -/
structure ApiBehavior where
  projectPages : List PageResp
  collectionPages : List PageResp
  createWithProjects : Option Entry
  createNameOnly : Option Entry
  attachOk : Bool
deriving DecidableEq, Repr

/-- A network request or file write issued during a run, recorded in order. -/
inductive Event where
  | listProjectsCall
  | listCollectionsCall
  | createWithRel (ids : List String)
  | createNameOnly
  | attach (collectionId : String) (ids : List String)
  | fileWrite (path : String) (ids : List String)
  | fileWriteDefaultName (ids : List String)
deriving DecidableEq, Repr

/-- Result of a code path that either returns a value or terminates the whole
process through `sys.exit(code)`. -/
inductive Outcome (α : Type) where
  | ret (a : α)
  | exit (code : Nat)
deriving DecidableEq, Repr

/-- `find_collection_by_name` (lines 149-167): lists the collections again
itself and scans them for the exact target name. -/
def find_collection_by_name (b : ApiBehavior) (target : String) : Option Entry :=
  find_first_by_name (get_collections b.collectionPages) target

/-- `create_collection` (lines 169-237).  When `project_ids` is truthy the
POST payload inlines the relationship batch; on failure of that request the
`except` handler at lines 226-237 recurses once with `project_ids = None`
(the name-only payload), and a failure of that name-only request calls
`sys.exit(1)`.  Returns the created entry (the `data` field of the response)
together with the requests issued. -/
def create_collection (b : ApiBehavior) (project_ids : Option (List String)) :
    Outcome Entry × List Event :=
  if h : pyTruthyIds project_ids then
    match b.createWithProjects with
    | some c => (Outcome.ret c, [Event.createWithRel (project_ids.getD [])])
    | none =>
      let fb := create_collection b none
      (fb.1, Event.createWithRel (project_ids.getD []) :: fb.2)
  else
    match b.createNameOnly with
    | some c => (Outcome.ret c, [Event.createNameOnly])
    | none => (Outcome.exit 1, [Event.createNameOnly])
termination_by match project_ids with | none => 0 | some _ => 1
decreasing_by
  cases project_ids with
  | none => simp [pyTruthyIds] at h
  | some l => simp

/-- `add_projects_to_collection` (lines 239-279): an empty batch returns
`True` without issuing a request; otherwise one POST to the relationships
sub-endpoint whose success is the returned boolean (failures are caught and
reported, never raised). -/
def add_projects_to_collection (b : ApiBehavior) (collection_id : String)
    (project_ids : List String) : Bool × List Event :=
  if project_ids.isEmpty then (true, [])
  else (b.attachOk, [Event.attach collection_id project_ids])

/-- `extract_project_ids` (lines 281-300): the `id` field of every listed
project, in listing order. -/
def extract_project_ids (b : ApiBehavior) : List String :=
  (get_projects_by_name_start b.projectPages).map (fun p => p.id)

/-- `save_project_ids` (lines 302-321): a falsy `output_file` (None or empty
string) is replaced by a timestamp-derived default name; the write attempt is
recorded (an OS failure is caught and reported, never raised). -/
def save_project_ids (project_ids : List String) (output_file : Option String) :
    List Event :=
  if pyTruthyStr output_file then [Event.fileWrite (output_file.getD "") project_ids]
  else [Event.fileWriteDefaultName project_ids]

/-- `process_projects_and_collection` (lines 323-388): extract the ids (empty
extraction returns `[]` at line 347); list the collections and treat an empty
result as collections-unavailable, returning the ids (line 359); otherwise
find the target collection (a second listing), create it when absent, attach
the batch, and on attach success optionally write the output file before
returning the ids; on attach failure return the ids without writing. -/
def process_projects_and_collection (b : ApiBehavior) (collection_name : String)
    (output_file : Option String) : Outcome (List String) × List Event :=
  let project_ids := extract_project_ids b
  let t1 : List Event := [Event.listProjectsCall]
  if project_ids.isEmpty then
    (Outcome.ret [], t1)
  else
    let collections := get_collections b.collectionPages
    let t2 := t1 ++ [Event.listCollectionsCall]
    if collections.isEmpty then
      (Outcome.ret project_ids, t2)
    else
      let t3 := t2 ++ [Event.listCollectionsCall]
      match find_collection_by_name b collection_name with
      | none =>
        let created := create_collection b (some project_ids)
        let t4 := t3 ++ created.2
        match created.1 with
        | Outcome.exit c => (Outcome.exit c, t4)
        | Outcome.ret col =>
          let att := add_projects_to_collection b col.id project_ids
          let t5 := t4 ++ att.2
          if att.1 then
            (Outcome.ret project_ids,
             t5 ++ (if pyTruthyStr output_file then save_project_ids project_ids output_file else []))
          else
            (Outcome.ret project_ids, t5)
      | some col =>
        let att := add_projects_to_collection b col.id project_ids
        let t5 := t3 ++ att.2
        if att.1 then
          (Outcome.ret project_ids,
           t5 ++ (if pyTruthyStr output_file then save_project_ids project_ids output_file else []))
        else
          (Outcome.ret project_ids, t5)

/-- The tail of `main` (lines 490-500): the process exit code of a run that
reaches `process_projects_and_collection` — 0 when the returned id list is
truthy (non-empty), 1 when it is empty, and the code of any `sys.exit`
raised inside the reconciler. -/
def main_run (b : ApiBehavior) (collection_name : String)
    (output_file : Option String) : Nat :=
  match (process_projects_and_collection b collection_name output_file).1 with
  | Outcome.exit c => c
  | Outcome.ret project_ids => if project_ids.isEmpty then 1 else 0

/-- A well-formed multi-page feed: every page succeeds, each page but the
last carries a `links.next` URL and the last omits it. -/
def mkFeed : List (List Entry) → List PageResp
  | [] => []
  | [d] => [PageResp.ok d false]
  | d :: rest => PageResp.ok d true :: mkFeed rest

/-! ### Helper lemmas -/

lemma walkPages_mkFeed (chunks : List (List Entry)) :
    walkPages (mkFeed chunks) = Except.ok chunks.flatten := by
  induction chunks with
  | nil => rfl
  | cons d rest ih =>
    cases rest with
    | nil => simp [mkFeed, walkPages]
    | cons e rest2 => simp [mkFeed, walkPages, ih]

lemma find_first_eq_find (entries : List Entry) (target : String) :
    find_first_by_name entries target
      = entries.find? (fun e => decide (e.name = some target)) := by
  induction entries with
  | nil => simp [find_first_by_name]
  | cons e rest ih =>
    by_cases h : e.name = some target <;>
      simp [find_first_by_name, List.find?_cons, h, ih]

lemma create_collection_eq (b : ApiBehavior) (ids : List String)
    (h : ids.isEmpty = false) :
    create_collection b (some ids) =
      match b.createWithProjects with
      | some c => (Outcome.ret c, [Event.createWithRel ids])
      | none =>
        match b.createNameOnly with
        | some c => (Outcome.ret c, [Event.createWithRel ids, Event.createNameOnly])
        | none => (Outcome.exit 1, [Event.createWithRel ids, Event.createNameOnly]) := by
  cases hcw : b.createWithProjects <;> cases hcn : b.createNameOnly <;>
    simp [create_collection, pyTruthyIds, h, hcw, hcn]

lemma isEmpty_false_of_ne_nil {α : Type} {l : List α} (h : l ≠ []) :
    l.isEmpty = false := by
  cases l with
  | nil => exact absurd rfl h
  | cons a t => rfl

/-! ### Claim theorems -/

/-- C4: every paginated listing whose pages each carry their entries in the
`data` field and a `links.next` URL exactly when further pages follow is
returned as the concatenation of the per-page `data` lists in fetch order;
in particular a 3-page feed of sizes 2, 2, 1 yields exactly the 5 entries in
original page order. -/
theorem c4_pagination_concatenation :
    (∀ chunks : List (List Entry),
        get_projects_by_name_start (mkFeed chunks) = chunks.flatten
        ∧ get_collections (mkFeed chunks) = chunks.flatten)
    ∧ get_collections (mkFeed
        [[⟨"e1", none⟩, ⟨"e2", none⟩], [⟨"e3", none⟩, ⟨"e4", none⟩], [⟨"e5", none⟩]])
      = [⟨"e1", none⟩, ⟨"e2", none⟩, ⟨"e3", none⟩, ⟨"e4", none⟩, ⟨"e5", none⟩] := by
  constructor
  · intro chunks
    constructor <;>
      simp [get_projects_by_name_start, get_collections, walkPages_mkFeed]
  · rfl

/-- C5: `find_collection_by_name` returns the first listed collection whose
name attribute is exactly (case-sensitively) the target, and `none` when no
entry matches — `List.find?` with the exact-equality predicate is precisely
that contract; moreover a collection named "Backend" is not matched by a
search for "backend". -/
theorem c5_find_first_exact_match :
    (∀ (b : ApiBehavior) (target : String),
        find_collection_by_name b target
          = (get_collections b.collectionPages).find?
              (fun e => decide (e.name = some target)))
    ∧ find_first_by_name [⟨"c1", some "Backend"⟩] "backend" = none := by
  constructor
  · intro b target
    exact find_first_eq_find _ _
  · rfl

/-- C9: every listing-level failure (transport error, or any non-2xx HTTP
status such as 401, 403 or 404, at any page of the walk) is caught inside
`get_projects_by_name_prefix` / `get_collections` — both embedded functions
are total and return the empty list on such a run — and the handler emits a
non-empty diagnostic message list. -/
theorem c9_listing_errors_degrade (feed : List PageResp) (e : SnykErr)
    (h : walkPages feed = Except.error e) :
    get_projects_by_name_start feed = []
    ∧ get_collections feed = []
    ∧ projects_error_messages e ≠ []
    ∧ collections_error_messages e ≠ [] := by
  refine ⟨?_, ?_, ?_, ?_⟩
  · simp [get_projects_by_name_start, h]
  · simp [get_collections, h]
  · cases e <;> simp [projects_error_messages]
  · cases e <;> simp [collections_error_messages]

theorem c9_witness :
    walkPages [PageResp.err (SnykErr.http 404)] = Except.error (SnykErr.http 404)
    ∧ (get_projects_by_name_start [PageResp.err (SnykErr.http 404)] = []
       ∧ get_collections [PageResp.err (SnykErr.http 404)] = []
       ∧ projects_error_messages (SnykErr.http 404) ≠ []
       ∧ collections_error_messages (SnykErr.http 404) ≠ []) :=
  ⟨rfl, c9_listing_errors_degrade [PageResp.err (SnykErr.http 404)] (SnykErr.http 404) rfl⟩

/-- C6: a run whose prefix matches zero projects returns the empty id
sequence from `process_projects_and_collection` and exits with code 1. -/
theorem c6_zero_projects_exit_one (b : ApiBehavior) (collection_name : String)
    (out : Option String) (h : extract_project_ids b = []) :
    (process_projects_and_collection b collection_name out).1 = Outcome.ret []
    ∧ main_run b collection_name out = 1 := by
  constructor
  · simp [process_projects_and_collection, h]
  · simp [main_run, process_projects_and_collection, h]

theorem c6_witness :
    extract_project_ids ⟨[PageResp.ok [] false], [], none, none, true⟩ = []
    ∧ ((process_projects_and_collection ⟨[PageResp.ok [] false], [], none, none, true⟩
          "Services" none).1 = Outcome.ret []
       ∧ main_run ⟨[PageResp.ok [] false], [], none, none, true⟩ "Services" none = 1) :=
  ⟨rfl, c6_zero_projects_exit_one _ "Services" none rfl⟩

/-- C3: when at least one project id was extracted and the collections
listing endpoint answers 404, the run still returns the full extracted id
sequence and the process exits with code 0. -/
theorem c3_collections_404_degraded_success (b : ApiBehavior) (ids : List String)
    (collection_name : String) (out : Option String)
    (h1 : extract_project_ids b = ids) (h2 : ids ≠ [])
    (h3 : walkPages b.collectionPages = Except.error (SnykErr.http 404)) :
    (process_projects_and_collection b collection_name out).1 = Outcome.ret ids
    ∧ main_run b collection_name out = 0 := by
  have hc : get_collections b.collectionPages = [] := by simp [get_collections, h3]
  have hne : ids.isEmpty = false := isEmpty_false_of_ne_nil h2
  constructor
  · simp [process_projects_and_collection, h1, hne, hc]
  · simp [main_run, process_projects_and_collection, h1, hne, hc]

theorem c3_witness :
    extract_project_ids
        ⟨[PageResp.ok [⟨"p1", some "svc-auth"⟩] false],
         [PageResp.err (SnykErr.http 404)], none, none, true⟩ = ["p1"]
    ∧ (["p1"] : List String) ≠ []
    ∧ ((process_projects_and_collection
          ⟨[PageResp.ok [⟨"p1", some "svc-auth"⟩] false],
           [PageResp.err (SnykErr.http 404)], none, none, true⟩ "Services" none).1
        = Outcome.ret ["p1"]
       ∧ main_run
          ⟨[PageResp.ok [⟨"p1", some "svc-auth"⟩] false],
           [PageResp.err (SnykErr.http 404)], none, none, true⟩ "Services" none = 0) :=
  ⟨rfl, by decide,
   c3_collections_404_degraded_success _ ["p1"] "Services" none rfl (by decide) rfl⟩

lemma isEmpty_false_of_get_ne_nil {l : List Entry} (h : l ≠ []) :
    l.isEmpty = false := by
  cases l with
  | nil => exact absurd rfl h
  | cons a t => rfl

/-- C7 as stated is false: when the create-with-relationships request and the
name-only fallback both fail, the run terminates through `sys.exit(1)` and
`process_projects_and_collection` does not return the extracted id sequence. -/
theorem c7_counterexample :
    ¬ (∀ (b : ApiBehavior) (collection_name : String) (out : Option String),
        extract_project_ids b ≠ [] →
        (process_projects_and_collection b collection_name out).1
          = Outcome.ret (extract_project_ids b)) := by
  intro hclaim
  have h1 : extract_project_ids
      ⟨[PageResp.ok [⟨"p1", some "svc-auth"⟩] false],
       [PageResp.ok [⟨"k1", some "Other"⟩] false], none, none, true⟩ = ["p1"] := rfl
  have hcr : create_collection
      ⟨[PageResp.ok [⟨"p1", some "svc-auth"⟩] false],
       [PageResp.ok [⟨"k1", some "Other"⟩] false], none, none, true⟩ (some ["p1"])
      = (Outcome.exit 1, [Event.createWithRel ["p1"], Event.createNameOnly]) := by
    simp [create_collection_eq _ ["p1"] rfl]
  have hfind : find_collection_by_name
      ⟨[PageResp.ok [⟨"p1", some "svc-auth"⟩] false],
       [PageResp.ok [⟨"k1", some "Other"⟩] false], none, none, true⟩ "Services"
      = none := rfl
  have hres := hclaim
      ⟨[PageResp.ok [⟨"p1", some "svc-auth"⟩] false],
       [PageResp.ok [⟨"k1", some "Other"⟩] false], none, none, true⟩
      "Services" none (by rw [h1]; exact fun hx => List.noConfusion hx)
  rw [h1] at hres
  have hexit : (process_projects_and_collection
      ⟨[PageResp.ok [⟨"p1", some "svc-auth"⟩] false],
       [PageResp.ok [⟨"k1", some "Other"⟩] false], none, none, true⟩
      "Services" none).1 = Outcome.exit 1 := by
    have hgc : get_collections [PageResp.ok [⟨"k1", some "Other"⟩] false]
        = [⟨"k1", some "Other"⟩] := rfl
    unfold process_projects_and_collection
    simp [h1, hfind, hcr, hgc]
  rw [hexit] at hres
  exact Outcome.noConfusion hres

/-- C7 amended: for every run in which at least one project id was extracted,
`process_projects_and_collection` either returns the full extracted id
sequence — whatever the outcome of collection reconciliation — or terminates
the process with exit code 1 on the fatal double-failure of collection
creation; whenever it returns at all, the returned value is the full
extracted id sequence. -/
theorem c7_returns_ids_or_fatal_exit (b : ApiBehavior) (collection_name : String)
    (out : Option String) (h : extract_project_ids b ≠ []) :
    (process_projects_and_collection b collection_name out).1
        = Outcome.ret (extract_project_ids b)
    ∨ (process_projects_and_collection b collection_name out).1 = Outcome.exit 1 := by
  have hne : (extract_project_ids b).isEmpty = false := isEmpty_false_of_ne_nil h
  have hcr := congrArg Prod.fst (create_collection_eq b (extract_project_ids b) hne)
  unfold process_projects_and_collection
  simp only [hne, Bool.false_eq_true, if_false]
  split
  · exact Or.inl rfl
  · split
    · -- no matching collection: create, then attach
      split
      · -- creation escalated to sys.exit
        rename_i c heq
        rw [hcr] at heq
        cases hcw : b.createWithProjects <;> cases hcn : b.createNameOnly <;>
          simp [hcw, hcn] at heq <;> simp [← heq]
      · -- creation returned a collection
        left
        split <;> rfl
    · -- collection found: attach to it
      left
      split <;> rfl

theorem c7_witness :
    extract_project_ids
        ⟨[PageResp.ok [⟨"p1", some "svc-auth"⟩] false],
         [PageResp.err (SnykErr.http 404)], none, none, true⟩ ≠ []
    ∧ ((process_projects_and_collection
          ⟨[PageResp.ok [⟨"p1", some "svc-auth"⟩] false],
           [PageResp.err (SnykErr.http 404)], none, none, true⟩ "Services" none).1
        = Outcome.ret (extract_project_ids
            ⟨[PageResp.ok [⟨"p1", some "svc-auth"⟩] false],
             [PageResp.err (SnykErr.http 404)], none, none, true⟩)
       ∨ (process_projects_and_collection
            ⟨[PageResp.ok [⟨"p1", some "svc-auth"⟩] false],
             [PageResp.err (SnykErr.http 404)], none, none, true⟩ "Services" none).1
          = Outcome.exit 1) :=
  ⟨by decide, c7_returns_ids_or_fatal_exit _ "Services" none (by decide)⟩

/-- C2: when the create-with-relationships request fails, `create_collection`
falls back exactly once to the name-only request (the issued-request trace is
exactly those two creation attempts); a failure of the fallback terminates
the process with exit code 1, while a fallback success returns the created
collection without raising and the reconciler then proceeds to attach the
full batch to it. -/
theorem c2_create_fallback_once (b : ApiBehavior) (ids : List String)
    (collection_name : String) (out : Option String)
    (hids : ids ≠ []) (hfail : b.createWithProjects = none) :
    (b.createNameOnly = none →
      create_collection b (some ids)
          = (Outcome.exit 1, [Event.createWithRel ids, Event.createNameOnly])
      ∧ (extract_project_ids b = ids → get_collections b.collectionPages ≠ [] →
          find_collection_by_name b collection_name = none →
          main_run b collection_name out = 1))
    ∧ (∀ c, b.createNameOnly = some c →
      create_collection b (some ids)
          = (Outcome.ret c, [Event.createWithRel ids, Event.createNameOnly])
      ∧ (extract_project_ids b = ids → get_collections b.collectionPages ≠ [] →
          find_collection_by_name b collection_name = none →
          (process_projects_and_collection b collection_name out).1 = Outcome.ret ids
          ∧ Event.attach c.id ids ∈ (process_projects_and_collection b collection_name out).2)) := by
  have hne : ids.isEmpty = false := isEmpty_false_of_ne_nil hids
  constructor
  · intro hcn
    have hcr : create_collection b (some ids)
        = (Outcome.exit 1, [Event.createWithRel ids, Event.createNameOnly]) := by
      simp [create_collection_eq b ids hne, hfail, hcn]
    refine ⟨hcr, ?_⟩
    intro h1 h2 h3
    have h2' : (get_collections b.collectionPages).isEmpty = false :=
      isEmpty_false_of_get_ne_nil h2
    unfold main_run process_projects_and_collection
    simp [h1, hne, h2', h3, hcr]
  · intro c hcn
    have hcr : create_collection b (some ids)
        = (Outcome.ret c, [Event.createWithRel ids, Event.createNameOnly]) := by
      simp [create_collection_eq b ids hne, hfail, hcn]
    refine ⟨hcr, ?_⟩
    intro h1 h2 h3
    have h2' : (get_collections b.collectionPages).isEmpty = false :=
      isEmpty_false_of_get_ne_nil h2
    have hatt : add_projects_to_collection b c.id ids
        = (b.attachOk, [Event.attach c.id ids]) := by
      simp [add_projects_to_collection, hne]
    constructor
    · unfold process_projects_and_collection
      simp only [h1, hne, Bool.false_eq_true, if_false, h2', h3, hcr, hatt]
      split <;> rfl
    · unfold process_projects_and_collection
      simp only [h1, hne, Bool.false_eq_true, if_false, h2', h3, hcr, hatt]
      split <;> simp [List.mem_append]

theorem c2_witness :
    ((["p1"] : List String) ≠ []
     ∧ (ApiBehavior.mk [PageResp.ok [⟨"p1", some "svc-auth"⟩] false]
          [PageResp.ok [⟨"k1", some "Other"⟩] false] none none true).createWithProjects
        = none)
    ∧ (((ApiBehavior.mk [PageResp.ok [⟨"p1", some "svc-auth"⟩] false]
          [PageResp.ok [⟨"k1", some "Other"⟩] false] none none true).createNameOnly = none →
        create_collection (ApiBehavior.mk [PageResp.ok [⟨"p1", some "svc-auth"⟩] false]
            [PageResp.ok [⟨"k1", some "Other"⟩] false] none none true) (some ["p1"])
            = (Outcome.exit 1, [Event.createWithRel ["p1"], Event.createNameOnly])
        ∧ (extract_project_ids (ApiBehavior.mk [PageResp.ok [⟨"p1", some "svc-auth"⟩] false]
              [PageResp.ok [⟨"k1", some "Other"⟩] false] none none true) = ["p1"] →
            get_collections (ApiBehavior.mk [PageResp.ok [⟨"p1", some "svc-auth"⟩] false]
              [PageResp.ok [⟨"k1", some "Other"⟩] false] none none true).collectionPages ≠ [] →
            find_collection_by_name (ApiBehavior.mk [PageResp.ok [⟨"p1", some "svc-auth"⟩] false]
              [PageResp.ok [⟨"k1", some "Other"⟩] false] none none true) "Services" = none →
            main_run (ApiBehavior.mk [PageResp.ok [⟨"p1", some "svc-auth"⟩] false]
              [PageResp.ok [⟨"k1", some "Other"⟩] false] none none true) "Services" none = 1))
       ∧ (∀ c, (ApiBehavior.mk [PageResp.ok [⟨"p1", some "svc-auth"⟩] false]
            [PageResp.ok [⟨"k1", some "Other"⟩] false] none none true).createNameOnly = some c →
          create_collection (ApiBehavior.mk [PageResp.ok [⟨"p1", some "svc-auth"⟩] false]
              [PageResp.ok [⟨"k1", some "Other"⟩] false] none none true) (some ["p1"])
              = (Outcome.ret c, [Event.createWithRel ["p1"], Event.createNameOnly])
          ∧ (extract_project_ids (ApiBehavior.mk [PageResp.ok [⟨"p1", some "svc-auth"⟩] false]
                [PageResp.ok [⟨"k1", some "Other"⟩] false] none none true) = ["p1"] →
              get_collections (ApiBehavior.mk [PageResp.ok [⟨"p1", some "svc-auth"⟩] false]
                [PageResp.ok [⟨"k1", some "Other"⟩] false] none none true).collectionPages ≠ [] →
              find_collection_by_name (ApiBehavior.mk [PageResp.ok [⟨"p1", some "svc-auth"⟩] false]
                [PageResp.ok [⟨"k1", some "Other"⟩] false] none none true) "Services" = none →
              (process_projects_and_collection
                  (ApiBehavior.mk [PageResp.ok [⟨"p1", some "svc-auth"⟩] false]
                    [PageResp.ok [⟨"k1", some "Other"⟩] false] none none true)
                  "Services" none).1 = Outcome.ret ["p1"]
              ∧ Event.attach c.id ["p1"] ∈ (process_projects_and_collection
                  (ApiBehavior.mk [PageResp.ok [⟨"p1", some "svc-auth"⟩] false]
                    [PageResp.ok [⟨"k1", some "Other"⟩] false] none none true)
                  "Services" none).2))) :=
  ⟨⟨by decide, rfl⟩,
   c2_create_fallback_once
     (ApiBehavior.mk [PageResp.ok [⟨"p1", some "svc-auth"⟩] false]
       [PageResp.ok [⟨"k1", some "Other"⟩] false] none none true)
     ["p1"] "Services" none (by decide) rfl⟩

/-- C8: when the target collection is freshly created with the relationship
batch inlined in the creation payload, a separate attach request against the
new collection id with the full project-id batch is still issued afterwards. -/
theorem c8_attach_after_fresh_create (b : ApiBehavior) (ids : List String)
    (cs : List Entry) (collection_name : String) (out : Option String) (c : Entry)
    (h1 : extract_project_ids b = ids) (h2 : ids ≠ [])
    (h3 : get_collections b.collectionPages = cs) (h4 : cs ≠ [])
    (h5 : find_first_by_name cs collection_name = none)
    (h6 : b.createWithProjects = some c) :
    Event.attach c.id ids ∈ (process_projects_and_collection b collection_name out).2 := by
  have hne : ids.isEmpty = false := isEmpty_false_of_ne_nil h2
  have h3' : (get_collections b.collectionPages).isEmpty = false := by
    rw [h3]; exact isEmpty_false_of_get_ne_nil h4
  have hfind : find_collection_by_name b collection_name = none := by
    rw [find_collection_by_name, h3]; exact h5
  have hcr : create_collection b (some ids) = (Outcome.ret c, [Event.createWithRel ids]) := by
    simp [create_collection_eq b ids hne, h6]
  have hatt : add_projects_to_collection b c.id ids
      = (b.attachOk, [Event.attach c.id ids]) := by
    simp [add_projects_to_collection, hne]
  unfold process_projects_and_collection
  simp only [h1, hne, Bool.false_eq_true, if_false, h3', hfind, hcr, hatt]
  split <;> simp [List.mem_append]

theorem c8_witness :
    (extract_project_ids
        ⟨[PageResp.ok [⟨"p1", some "svc-auth"⟩] false],
         [PageResp.ok [⟨"k1", some "Other"⟩] false],
         some ⟨"newcol", some "Services"⟩, none, true⟩ = ["p1"]
     ∧ find_first_by_name [⟨"k1", some "Other"⟩] "Services" = none)
    ∧ Event.attach "newcol" ["p1"] ∈ (process_projects_and_collection
        ⟨[PageResp.ok [⟨"p1", some "svc-auth"⟩] false],
         [PageResp.ok [⟨"k1", some "Other"⟩] false],
         some ⟨"newcol", some "Services"⟩, none, true⟩ "Services" none).2 :=
  ⟨⟨rfl, rfl⟩,
   c8_attach_after_fresh_create _ ["p1"] [⟨"k1", some "Other"⟩] "Services" none
     ⟨"newcol", some "Services"⟩ rfl (by decide) rfl (by decide) rfl rfl⟩

/-- C1 fails on the code: with a non-empty extracted batch and a collections
listing that SUCCEEDS with zero entries, the guard at line 352 of the source
(`collections is None or (... len(collections) == 0 ...)`) fires on the empty
list, so the run is diverted into the collections-unsupported degraded path
and returns the ids; no creation request is ever issued — even though the
remote would have accepted one (`createWithProjects` is a success here).
The trace of the run is exactly the two listing requests. -/
theorem c1_empty_listing_diverted_no_create :
    walkPages [PageResp.ok ([] : List Entry) false] = Except.ok []
    ∧ extract_project_ids
        ⟨[PageResp.ok [⟨"p1", some "svc-auth"⟩] false], [PageResp.ok [] false],
         some ⟨"newcol", some "Services"⟩, some ⟨"newcol", some "Services"⟩, true⟩ = ["p1"]
    ∧ process_projects_and_collection
        ⟨[PageResp.ok [⟨"p1", some "svc-auth"⟩] false], [PageResp.ok [] false],
         some ⟨"newcol", some "Services"⟩, some ⟨"newcol", some "Services"⟩, true⟩
        "Services" none
      = (Outcome.ret ["p1"], [Event.listProjectsCall, Event.listCollectionsCall])
    ∧ ∀ ids : List String,
        Event.createWithRel ids ∉ (process_projects_and_collection
          ⟨[PageResp.ok [⟨"p1", some "svc-auth"⟩] false], [PageResp.ok [] false],
           some ⟨"newcol", some "Services"⟩, some ⟨"newcol", some "Services"⟩, true⟩
          "Services" none).2 := by
  refine ⟨rfl, rfl, by decide, ?_⟩
  intro ids
  have ht : (process_projects_and_collection
      ⟨[PageResp.ok [⟨"p1", some "svc-auth"⟩] false], [PageResp.ok [] false],
       some ⟨"newcol", some "Services"⟩, some ⟨"newcol", some "Services"⟩, true⟩
      "Services" none).2
      = [Event.listProjectsCall, Event.listCollectionsCall] := by decide
  rw [ht]
  simp

lemma ne_nil_of_isEmpty_false {α : Type} {l : List α} (h : l.isEmpty = false) :
    l ≠ [] := by
  intro hx
  rw [hx] at h
  simp at h

/-- C10: the output file is written only on the run path where the attach
request reported success and a truthy output path was supplied; any file
write recorded in the trace pins down that the attach succeeded, that the
written path is the supplied one, that the written ids are the full extracted
sequence, and that the run was not on the collections-unavailable degraded
path. -/
theorem c10_file_write_only_on_success (b : ApiBehavior) (collection_name : String)
    (out : Option String) (p : String) (l : List String)
    (h : Event.fileWrite p l ∈ (process_projects_and_collection b collection_name out).2) :
    b.attachOk = true ∧ out = some p ∧ l = extract_project_ids b
    ∧ get_collections b.collectionPages ≠ [] := by
  by_cases hemp : (extract_project_ids b).isEmpty = true
  · unfold process_projects_and_collection at h
    simp [hemp] at h
  · have hne : (extract_project_ids b).isEmpty = false := by
      cases hbool : (extract_project_ids b).isEmpty
      · rfl
      · exact absurd hbool hemp
    by_cases hcol : (get_collections b.collectionPages).isEmpty = true
    · unfold process_projects_and_collection at h
      simp [hne, hcol] at h
    · have hcne : (get_collections b.collectionPages).isEmpty = false := by
        cases hbool : (get_collections b.collectionPages).isEmpty
        · rfl
        · exact absurd hbool hcol
      have hgne : get_collections b.collectionPages ≠ [] := ne_nil_of_isEmpty_false hcne
      have hatt : ∀ cid, add_projects_to_collection b cid (extract_project_ids b)
          = (b.attachOk, [Event.attach cid (extract_project_ids b)]) := by
        intro cid
        simp [add_projects_to_collection, hne]
      have hcr := create_collection_eq b (extract_project_ids b) hne
      unfold process_projects_and_collection at h
      simp only [hne, hcne, Bool.false_eq_true, if_false] at h
      cases hfind : find_collection_by_name b collection_name with
      | some col =>
        rw [hfind] at h
        simp only at h
        rw [hatt col.id] at h
        cases hao : b.attachOk with
        | false => simp [hao] at h
        | true =>
          rw [hao] at h
          simp only [if_true] at h
          cases hts : pyTruthyStr out with
          | false => simp [hts] at h
          | true =>
            simp [hts, save_project_ids] at h
            obtain ⟨hp, hl⟩ := h
            cases out with
            | none => simp [pyTruthyStr] at hts
            | some s => exact ⟨rfl, by simp [hp], hl, hgne⟩
      | none =>
        rw [hfind] at h
        cases hcw : b.createWithProjects with
        | none =>
          cases hcn : b.createNameOnly with
          | none =>
            rw [hcw, hcn] at hcr
            simp only at hcr
            rw [hcr] at h
            simp at h
          | some c =>
            rw [hcw, hcn] at hcr
            simp only at hcr
            rw [hcr] at h
            simp only at h
            rw [hatt c.id] at h
            cases hao : b.attachOk with
            | false => simp [hao] at h
            | true =>
              rw [hao] at h
              simp only [if_true] at h
              cases hts : pyTruthyStr out with
              | false => simp [hts] at h
              | true =>
                simp [hts, save_project_ids] at h
                obtain ⟨hp, hl⟩ := h
                cases out with
                | none => simp [pyTruthyStr] at hts
                | some s => exact ⟨rfl, by simp [hp], hl, hgne⟩
        | some c =>
          rw [hcw] at hcr
          simp only at hcr
          rw [hcr] at h
          simp only at h
          rw [hatt c.id] at h
          cases hao : b.attachOk with
          | false => simp [hao] at h
          | true =>
            rw [hao] at h
            simp only [if_true] at h
            cases hts : pyTruthyStr out with
            | false => simp [hts] at h
            | true =>
              simp [hts, save_project_ids] at h
              obtain ⟨hp, hl⟩ := h
              cases out with
              | none => simp [pyTruthyStr] at hts
              | some s => exact ⟨rfl, by simp [hp], hl, hgne⟩

theorem c10_witness :
    Event.fileWrite "out.txt" ["p1"] ∈ (process_projects_and_collection
        ⟨[PageResp.ok [⟨"p1", some "svc-auth"⟩] false],
         [PageResp.ok [⟨"k1", some "Services"⟩] false], none, none, true⟩
        "Services" (some "out.txt")).2
    ∧ ((ApiBehavior.mk [PageResp.ok [⟨"p1", some "svc-auth"⟩] false]
          [PageResp.ok [⟨"k1", some "Services"⟩] false] none none true).attachOk = true
       ∧ (some "out.txt" : Option String) = some "out.txt"
       ∧ ["p1"] = extract_project_ids
          ⟨[PageResp.ok [⟨"p1", some "svc-auth"⟩] false],
           [PageResp.ok [⟨"k1", some "Services"⟩] false], none, none, true⟩
       ∧ get_collections (ApiBehavior.mk [PageResp.ok [⟨"p1", some "svc-auth"⟩] false]
          [PageResp.ok [⟨"k1", some "Services"⟩] false] none none true).collectionPages ≠ []) :=
  ⟨by decide,
   c10_file_write_only_on_success _ "Services" (some "out.txt") "out.txt" ["p1"] (by decide)⟩

end CollectionsAPI
